import Mathlib

/-
Verification development for the mypy DRF plugin (`mypy_drf_plugin/main.py`).

The plugin's functions are embedded shallowly:

* `transform_serializer_class` records a newly declared serializer class in
  the registry stored on the base serializer's metadata and relaxes the
  nested `Meta` class.
* `redefine_and_typecheck_serializer_fields` performs the final-pass
  resolution: dynamic import of the real class, applicability checks,
  shadow instantiation (observing the runtime field collection), field to
  static-type mapping, and injection of the synthetic `fields` and `data`
  properties into the class's symbol table.
* `add_property_returning_typed_dict` builds the synthetic property node
  and installs it unless the name is already declared.
* `handle_serializer_class` is the per-pass entry point that defers on all
  but the final iteration.
* `handle_return_type` is the auxiliary return-type resolver reading the
  private `_pyi_data` side-table entry.

Python dictionaries are modelled as association lists with first-occurrence
lookup and in-place update (`dlookup` / `dinsert`).  Exceptions that escape
a function are modelled with `Except`: an `Except.error` value is an
exception propagating out of the embedded function, while caught exceptions
are reflected by the branch the source's `try`/`except` takes.  Machine-level
concerns do not arise.  The runtime (imported) world is modelled by
`PyWorld`: modules reachable by `importlib.import_module`, their attributes,
and for each class its method-resolution order, its metaclass's
method-resolution order (what `isinstance` on the class object consults),
whether it has a `Meta` attribute, and the field collection that shadow
instantiation of `FakeSerializer` observes.
-/

set_option autoImplicit false

namespace DRFPlugin

/-- Static mypy types, restricted to the constructors this plugin builds or
inspects: `AnyType`, `Instance` of a field class, `TypedDictType` with its
items and required keys, `typing.List` of a type, the nullable form produced
for `allow_null` fields, `CallableType` (a property getter's type), and
`typing.Mapping` (the resolver's fallback). -/
inductive MypyTy : Type where
  | anyTy (typeOfAny : Nat)
  | instanceTy (fullname : String)
  | typedDictTy (items : List (String × MypyTy)) (requiredKeys : List String)
  | listTy (arg : MypyTy)
  | optionalTy (arg : MypyTy)
  | callableTy (argTys : List MypyTy) (retTy : MypyTy)
  | mappingTy

/-- The symbol-table node's underlying mypy node, as far as the plugin and
the resolver look at it: a `Decorator` (carrying `var.type` and
`func.type`), a `Var`, a `FuncDef`, or anything else. -/
inductive MpNode : Type where
  | decoratorNode (varType : Option MypyTy) (funcType : Option MypyTy)
  | varNode (varType : Option MypyTy)
  | funcNode (funcType : Option MypyTy)
  | otherNode

/-- A mypy `SymbolTableNode`: a node identity (so that "the very same node"
is expressible), the wrapped node, and the `plugin_generated` flag. -/
structure STNode : Type where
  nodeId : Nat
  node : MpNode
  pluginGenerated : Bool

/-- `SymbolTableNode.type`: for a `Decorator` it is the decorator variable's
type (mypy reads `node.var.type`), for a `Var` or `FuncDef` the node's own
type, and `None` otherwise. -/
def STNode.sttype : STNode → Option MypyTy
  | ⟨_, MpNode.decoratorNode vt _, _⟩ => vt
  | ⟨_, MpNode.varNode vt, _⟩ => vt
  | ⟨_, MpNode.funcNode ft, _⟩ => ft
  | ⟨_, MpNode.otherNode, _⟩ => none

/-- Python attribute access `t.ret_type`: defined on `CallableType` only;
on any other type it raises `AttributeError` (modelled as `none`). -/
def retTypeAttr : MypyTy → Option MypyTy
  | MypyTy.callableTy _ r => some r
  | _ => none

/-- A class's symbol table (`TypeInfo.names`): a Python dict from member
name to symbol-table node. -/
abbrev SymTable := List (String × STNode)

/-- Exceptions that can propagate out of the embedded functions. -/
inductive PErr : Type where
  | moduleNotFoundError (moduleName : String)
  | keyError (key : String)
  | attributeError (attr : String)
deriving DecidableEq

/-- First-occurrence lookup in a Python dict modelled as an association
list (`d[k]` / `k in d`). -/
def dlookup {α : Type} : List (String × α) → String → Option α
  | [], _ => none
  | (k0, v) :: rest, k => if k0 = k then some v else dlookup rest k

/-- Python dict assignment `d[k] = v`: replace the value at the first
occurrence of the key, otherwise append the new entry. -/
def dinsert {α : Type} : List (String × α) → String → α → List (String × α)
  | [], k, v => [(k, v)]
  | (k0, v0) :: rest, k, v =>
      if k0 = k then (k, v) :: rest else (k0, v0) :: dinsert rest k v

/-- A runtime field object, as far as the plugin inspects it:
`field.__module__`, `field.__class__.__name__`, `field.source`, and the
optional `allow_null` attribute (`none` when the attribute is absent). -/
structure PyFieldObj : Type where
  moduleName : String
  clsName : String
  source : String
  allowNull : Option Bool

/-- A runtime class object.  `mro` is the set of fully-qualified names of
the classes in its method-resolution order (what `issubclass` consults);
`metaclassMro` is the method-resolution order of its metaclass (what
`isinstance` applied to the class object consults); `hasMeta` is
`hasattr(ser, "Meta")`; `fields` is the field collection, in order, that
reading `FakeSerializer().fields` observes via shadow instantiation. -/
structure PyClassObj : Type where
  clsName : String
  mro : List String
  metaclassMro : List String
  hasMeta : Bool
  fields : List (String × PyFieldObj)

/-- A runtime module: its attributes that hold class objects
(`getattr(module, name)`; a missing name raises `AttributeError`). -/
structure PyModuleObj : Type where
  attrs : List (String × PyClassObj)

/-- The runtime world behind the dynamic-import boundary: the modules
`importlib.import_module` can load (a missing module raises
`ModuleNotFoundError`). -/
structure PyWorld : Type where
  modules : List (String × PyModuleObj)

/-- A checker-side module symbol table (`ctx.api.modules[m].names`),
mapping a class name to the fully-qualified name of its `TypeInfo`. -/
structure ModuleSyms : Type where
  names : List (String × String)

/-- The slice of the semantic-analyzer API the plugin uses: the module
table `ctx.api.modules`, an oracle giving each field `TypeInfo`'s declared
actual-value type (see `get_private_descriptor_type`), and the
`final_iteration` flag. -/
structure CheckerApi : Type where
  modules : List (String × ModuleSyms)
  actualFieldType : String → MypyTy
  finalIteration : Bool

/-- The class-definition context: the class's fully-qualified name
(`ctx.cls.fullname`) and its member table (`ctx.cls.info.names`). -/
structure Ctx : Type where
  clsFullname : String
  names : SymTable

/-- The observable outcome of one resolution: the resulting member table,
how many shadow instantiations were performed, and the diagnostics emitted
(the plugin emits none). -/
structure ResolveOut : Type where
  names : SymTable
  instantiations : Nat
  diagnostics : List String

/-- Split a character list at its last `.`, returning the parts before and
after it, or `none` when no `.` occurs. -/
def rsplitDotAux : List Char → Option (List Char × List Char)
  | [] => none
  | c :: rest =>
      match rsplitDotAux rest with
      | some (pre, suf) => some (c :: pre, suf)
      | none => if c = '.' then some ([], rest) else none

/-- `fullname.rsplit(".", 1)` unpacked into `(module_path, klass)`.  Every
fully-qualified class name contains a dot; for a dotless input (where the
Python unpacking would fail) the whole input is kept as the class part. -/
def rsplitDot (s : String) : String × String :=
  match rsplitDotAux s.data with
  | some (pre, suf) => (String.mk pre, String.mk suf)
  | none => ("", s)

def modelSerializerFullname : String := "rest_framework.serializers.ModelSerializer"

def listSerializerFullname : String := "rest_framework.serializers.ListSerializer"

/-- Modelled from the spec: `get_private_descriptor_type` is a helper of
the companion Django plugin (not part of this repository's sources).  Per
the spec it resolves the field class's declared actual-value type and, when
`is_nullable` holds, carries a nullability annotation on it; the
actual-value type itself is an oracle of the checker state. -/
def get_private_descriptor_type (api : CheckerApi) (typeInfoFullname : String)
    (is_nullable : Bool) : MypyTy :=
  if is_nullable then MypyTy.optionalTy (api.actualFieldType typeInfoFullname)
  else api.actualFieldType typeInfoFullname

/-- One iteration of the field loop: look the field's runtime class up in
its defining module's checker symbol table (`ctx.api.modules[field.__module__]
.names[field.__class__.__name__]`, both lookups inside one
`try`/`except KeyError`) and write the two mapping entries: on failure both
entries become `AnyType(1)`; on success the field-registry entry is the bare
`Instance` and the data-shape entry the actual-value type with nullability
from `getattr(field, "allow_null", False)`. -/
def mapField (api : CheckerApi) (ft dt : List (String × MypyTy)) (name : String)
    (f : PyFieldObj) : List (String × MypyTy) × List (String × MypyTy) :=
  match dlookup api.modules f.moduleName with
  | none => (dinsert ft name (MypyTy.anyTy 1), dinsert dt f.source (MypyTy.anyTy 1))
  | some fmodule =>
      match dlookup fmodule.names f.clsName with
      | none => (dinsert ft name (MypyTy.anyTy 1), dinsert dt f.source (MypyTy.anyTy 1))
      | some ftype =>
          (dinsert ft name (MypyTy.instanceTy ftype),
           dinsert dt f.source
             (get_private_descriptor_type api ftype (f.allowNull.getD false)))

/-- The field loop of `redefine_and_typecheck_serializer_fields`: fold
`mapField` over the observed `(name, field)` pairs, building `field_types`
and `data_types`. -/
def build_field_maps (api : CheckerApi) :
    List (String × PyFieldObj) → List (String × MypyTy) → List (String × MypyTy) →
    List (String × MypyTy) × List (String × MypyTy)
  | [], ft, dt => (ft, dt)
  | (n, f) :: rest, ft, dt =>
      let step := mapField api ft dt n f
      build_field_maps api rest step.1 step.2

/-- `add_property_returning_typed_dict`: build the typed-dict return type
(wrapped in `typing.List` when `is_list`), the synthetic `Decorator` node
(whose `var` has no type and whose `func` has the property's
`CallableType`), install it under `property_name` unless `is_data_defined`,
and for the name `data` also record the current `data` node under the
private key `_pyi_data` (a missing `data` entry at that point would raise
`KeyError`). -/
def add_property_returning_typed_dict (names : SymTable)
    (typed_dict_keys : List (String × MypyTy)) (property_name : String)
    (is_list : Bool) (is_data_defined : Bool) (fresh : Nat) :
    Except PErr SymTable :=
  let ret_type0 := MypyTy.typedDictTy typed_dict_keys []
  let ret_type := if is_list then MypyTy.listTy ret_type0 else ret_type0
  let dec : STNode :=
    ⟨fresh, MpNode.decoratorNode none
        (some (MypyTy.callableTy [MypyTy.anyTy 1] ret_type)), true⟩
  let names1 := if is_data_defined then names else dinsert names property_name dec
  if property_name = "data" then
    match dlookup names1 property_name with
    | some n => Except.ok (dinsert names1 "_pyi_data" n)
    | none => Except.error (PErr.keyError property_name)
  else Except.ok names1

/-- `redefine_and_typecheck_serializer_fields`: the final-pass resolution.
Import the class's module (`importlib.import_module`, uncaught on failure),
fetch the class attribute (`AttributeError` caught: silent return), check
`issubclass(ser, ModelSerializer) and hasattr(ser, "Meta")` (silent return
on failure), shadow-instantiate `FakeSerializer` and read its field
collection, build the two type mappings, look the module up in
`ctx.api.modules` (uncaught `KeyError` on failure), then inject `fields`
(only when not already declared) and `data` (always invoked, with
`is_list = isinstance(ser, ListSerializer)` — a check against the class
object, hence against its metaclass — and
`is_data_defined = "data" in ctx.cls.info.names`). -/
def redefine_and_typecheck_serializer_fields (ctx : Ctx) (api : CheckerApi)
    (world : PyWorld) (fresh : Nat) : Except PErr ResolveOut :=
  let module_path := (rsplitDot ctx.clsFullname).1
  let klass := (rsplitDot ctx.clsFullname).2
  match dlookup world.modules module_path with
  | none => Except.error (PErr.moduleNotFoundError module_path)
  | some pymodule =>
      match dlookup pymodule.attrs klass with
      | none => Except.ok ⟨ctx.names, 0, []⟩
      | some ser =>
          if ¬ (modelSerializerFullname ∈ ser.mro ∧ ser.hasMeta = true) then
            Except.ok ⟨ctx.names, 0, []⟩
          else
            let maps := build_field_maps api ser.fields [] []
            match dlookup api.modules module_path with
            | none => Except.error (PErr.keyError module_path)
            | some _target_module =>
                let step1 :=
                  if (dlookup ctx.names "fields").isSome then Except.ok ctx.names
                  else add_property_returning_typed_dict ctx.names maps.1 "fields"
                    false false fresh
                match step1 with
                | Except.error e => Except.error e
                | Except.ok names1 =>
                    match add_property_returning_typed_dict names1 maps.2 "data"
                        (decide (listSerializerFullname ∈ ser.metaclassMro))
                        (dlookup names1 "data").isSome (fresh + 1) with
                    | Except.error e => Except.error e
                    | Except.ok names2 => Except.ok ⟨names2, 1, []⟩

/-- `transform_serializer_class`: when the base serializer's symbol resolves
to a `TypeInfo`, record the class's fullname in the `serializer_bases`
registry kept on that `TypeInfo`'s metadata; then relax the nested `Meta`
class (`make_meta_nested_class_inherit_from_any`), reported here as a flag. -/
def transform_serializer_class (registry : List (String × Nat))
    (baseSymIsTypeInfo : Bool) (clsFullname : String) :
    List (String × Nat) × Bool :=
  (if baseSymIsTypeInfo then dinsert registry clsFullname 1 else registry, true)

/-- The observable outcome of one invocation of the per-pass handler. -/
structure HandleOut : Type where
  registry : List (String × Nat)
  metaRelaxed : Bool
  deferRequested : Bool
  result : Except PErr ResolveOut

/-- `handle_serializer_class`: run the base-class transform when
`base_process`; on a non-final iteration call `ctx.api.defer()` and return
(member table untouched, nothing instantiated); on the final iteration run
the full resolution. -/
def handle_serializer_class (ctx : Ctx) (api : CheckerApi) (world : PyWorld)
    (fresh : Nat) (registry : List (String × Nat)) (baseSymIsTypeInfo : Bool)
    (base_process : Bool) : HandleOut :=
  let t := if base_process then
      transform_serializer_class registry baseSymIsTypeInfo ctx.clsFullname
    else (registry, false)
  if api.finalIteration = false then
    ⟨t.1, t.2, true, Except.ok ⟨ctx.names, 0, []⟩⟩
  else
    ⟨t.1, t.2, false, redefine_and_typecheck_serializer_fields ctx api world fresh⟩

/-- One host analysis run over a serializer class: invoke the handler once
per pass (the Boolean is that pass's `final_iteration` flag), threading the
class's member table and summing the shadow instantiations.  An uncaught
exception ends the run. -/
def run_passes (clsFullname : String) (api : CheckerApi) (world : PyWorld)
    (fresh : Nat) : SymTable → List Bool → SymTable × Nat
  | names, [] => (names, 0)
  | names, final :: rest =>
      let out := handle_serializer_class ⟨clsFullname, names⟩
        ⟨api.modules, api.actualFieldType, final⟩ world fresh [] false false
      match out.result with
      | Except.ok r =>
          let t := run_passes clsFullname api world fresh r.names rest
          (t.1, r.instantiations + t.2)
      | Except.error _ => (names, 0)

/-- `handle_return_type`, after the wrapper's type argument has been
resolved to the serializer class: read the class's `_pyi_data` member if
present; if that node's `type` is set return its `ret_type` (an
`AttributeError` if the type is not callable), otherwise fall through to
`typing.Mapping`. -/
def handle_return_type (serializerNames : SymTable) : Except PErr MypyTy :=
  match dlookup serializerNames "_pyi_data" with
  | some n =>
      match STNode.sttype n with
      | some t =>
          match retTypeAttr t with
          | some r => Except.ok r
          | none => Except.error (PErr.attributeError "ret_type")
      | none => Except.ok MypyTy.mappingTy
  | none => Except.ok MypyTy.mappingTy

/-- The return type carried by an injected (or user) property node at a
member name: the `ret_type` of the `Decorator`'s function type. -/
def injected_ret_type (names : SymTable) (property_name : String) : Option MypyTy :=
  match dlookup names property_name with
  | some n =>
      match n.node with
      | MpNode.decoratorNode _ (some (MypyTy.callableTy _ r)) => some r
      | _ => none
  | none => none

/-- Whether a static type is the `typing.List` wrapping of some type. -/
def is_list_type : MypyTy → Bool
  | MypyTy.listTy _ => true
  | _ => false

/-- The static type `mapField` resolves for the field-registry entry. -/
def fieldRegTy (api : CheckerApi) (f : PyFieldObj) : MypyTy :=
  match dlookup api.modules f.moduleName with
  | none => MypyTy.anyTy 1
  | some fmodule =>
      match dlookup fmodule.names f.clsName with
      | none => MypyTy.anyTy 1
      | some ftype => MypyTy.instanceTy ftype

/-- The static type `mapField` resolves for the data-shape entry. -/
def dataShapeTy (api : CheckerApi) (f : PyFieldObj) : MypyTy :=
  match dlookup api.modules f.moduleName with
  | none => MypyTy.anyTy 1
  | some fmodule =>
      match dlookup fmodule.names f.clsName with
      | none => MypyTy.anyTy 1
      | some ftype =>
          get_private_descriptor_type api ftype (f.allowNull.getD false)

/-- The synthetic property node `add_property_returning_typed_dict` builds:
a `Decorator` whose variable has no type and whose function carries the
property's callable type. -/
def synthPropertyNode (typed_dict_keys : List (String × MypyTy)) (is_list : Bool)
    (fresh : Nat) : STNode :=
  ⟨fresh, MpNode.decoratorNode none
      (some (MypyTy.callableTy [MypyTy.anyTy 1]
        (if is_list then MypyTy.listTy (MypyTy.typedDictTy typed_dict_keys [])
         else MypyTy.typedDictTy typed_dict_keys []))), true⟩

/-- The member table produced by an applicable final-pass resolution:
inject `fields` when absent, then run the `data` step (install when absent,
then alias the current `data` node under `_pyi_data`). -/
def resolvedNames (ctx : Ctx) (api : CheckerApi) (ser : PyClassObj)
    (fresh : Nat) : SymTable :=
  let maps := build_field_maps api ser.fields [] []
  let names1 := if (dlookup ctx.names "fields").isSome then ctx.names
    else dinsert ctx.names "fields" (synthPropertyNode maps.1 false fresh)
  let isl := decide (listSerializerFullname ∈ ser.metaclassMro)
  match dlookup names1 "data" with
  | some u => dinsert names1 "_pyi_data" u
  | none =>
      dinsert (dinsert names1 "data" (synthPropertyNode maps.2 isl (fresh + 1)))
        "_pyi_data" (synthPropertyNode maps.2 isl (fresh + 1))

section DictLemmas

variable {α : Type}

@[simp]
theorem dlookup_dinsert_self (l : List (String × α)) (k : String) (v : α) :
    dlookup (dinsert l k v) k = some v := by
  induction l with
  | nil => simp [dinsert, dlookup]
  | cons p rest ih =>
      obtain ⟨k0, v0⟩ := p
      by_cases h : k0 = k
      · simp [dinsert, h, dlookup]
      · simp [dinsert, h, dlookup, ih]

theorem dlookup_dinsert_ne (l : List (String × α)) (k k' : String) (v : α)
    (h : k ≠ k') : dlookup (dinsert l k v) k' = dlookup l k' := by
  induction l with
  | nil => simp [dinsert, dlookup, h]
  | cons p rest ih =>
      obtain ⟨k0, v0⟩ := p
      by_cases h0 : k0 = k
      · subst h0
        simp [dinsert, dlookup, h]
      · simp only [dinsert, if_neg h0, dlookup]
        by_cases h1 : k0 = k'
        · simp [h1]
        · simp [h1, ih]

theorem dinsert_dlookup_self (l : List (String × α)) (k : String) (v : α)
    (h : dlookup l k = some v) : dinsert l k v = l := by
  induction l with
  | nil => simp [dlookup] at h
  | cons p rest ih =>
      obtain ⟨k0, v0⟩ := p
      by_cases h0 : k0 = k
      · subst h0
        simp [dlookup] at h
        simp [dinsert, h]
      · simp [dlookup, h0] at h
        simp [dinsert, h0, ih h]

theorem dlookup_isSome_iff_mem (l : List (String × α)) (k : String) :
    (dlookup l k).isSome = true ↔ k ∈ l.map Prod.fst := by
  induction l with
  | nil => simp [dlookup]
  | cons p rest ih =>
      obtain ⟨k0, v0⟩ := p
      by_cases h0 : k0 = k
      · simp [dlookup, h0]
      · simp [dlookup, h0, ih, Ne.symm h0]

theorem keys_dinsert (l : List (String × α)) (k : String) (v : α) :
    (dinsert l k v).map Prod.fst =
      if k ∈ l.map Prod.fst then l.map Prod.fst else l.map Prod.fst ++ [k] := by
  induction l with
  | nil => simp [dinsert]
  | cons p rest ih =>
      obtain ⟨k0, v0⟩ := p
      by_cases h0 : k0 = k
      · subst h0
        simp [dinsert]
      · have h0' : ¬ k = k0 := fun he => h0 he.symm
        simp only [dinsert, if_neg h0, List.map_cons, List.mem_cons, ih]
        by_cases hk : k ∈ rest.map Prod.fst
        · simp [hk, h0']
        · simp [hk, h0']

theorem mem_keys_dinsert (l : List (String × α)) (k : String) (v : α)
    (m : String) :
    m ∈ (dinsert l k v).map Prod.fst ↔ m ∈ l.map Prod.fst ∨ m = k := by
  rw [keys_dinsert]
  by_cases hk : k ∈ l.map Prod.fst
  · simp only [if_pos hk]
    constructor
    · exact Or.inl
    · rintro (h | rfl)
      · exact h
      · exact hk
  · simp [if_neg hk]

theorem nodup_keys_dinsert (l : List (String × α)) (k : String) (v : α)
    (h : (l.map Prod.fst).Nodup) : ((dinsert l k v).map Prod.fst).Nodup := by
  rw [keys_dinsert]
  by_cases hk : k ∈ l.map Prod.fst
  · simpa [if_pos hk] using h
  · simp [if_neg hk, List.nodup_append, h, hk]

end DictLemmas

theorem mapField_eq (api : CheckerApi) (ft dt : List (String × MypyTy))
    (n : String) (f : PyFieldObj) :
    mapField api ft dt n f =
      (dinsert ft n (fieldRegTy api f), dinsert dt f.source (dataShapeTy api f)) := by
  unfold mapField fieldRegTy dataShapeTy
  rcases hm : dlookup api.modules f.moduleName with _ | fm
  · simp
  · rcases hc : dlookup fm.names f.clsName with _ | ti <;> simp [hc]

theorem fieldRegTy_of_fail (api : CheckerApi) (f : PyFieldObj)
    (h : (dlookup api.modules f.moduleName).bind
      (fun fm => dlookup fm.names f.clsName) = none) :
    fieldRegTy api f = MypyTy.anyTy 1 := by
  unfold fieldRegTy
  cases hm : dlookup api.modules f.moduleName with
  | none => rfl
  | some fm =>
      rw [hm] at h
      simp at h
      simp [h]

theorem dataShapeTy_of_fail (api : CheckerApi) (f : PyFieldObj)
    (h : (dlookup api.modules f.moduleName).bind
      (fun fm => dlookup fm.names f.clsName) = none) :
    dataShapeTy api f = MypyTy.anyTy 1 := by
  unfold dataShapeTy
  cases hm : dlookup api.modules f.moduleName with
  | none => rfl
  | some fm =>
      rw [hm] at h
      simp at h
      simp [h]

theorem build_field_maps_cons (api : CheckerApi) (n : String) (f : PyFieldObj)
    (rest : List (String × PyFieldObj)) (ft dt : List (String × MypyTy)) :
    build_field_maps api ((n, f) :: rest) ft dt =
      build_field_maps api rest (dinsert ft n (fieldRegTy api f))
        (dinsert dt f.source (dataShapeTy api f)) := by
  simp [build_field_maps, mapField_eq]

theorem build_field_maps_append (api : CheckerApi)
    (xs ys : List (String × PyFieldObj)) (ft dt : List (String × MypyTy)) :
    build_field_maps api (xs ++ ys) ft dt =
      build_field_maps api ys (build_field_maps api xs ft dt).1
        (build_field_maps api xs ft dt).2 := by
  induction xs generalizing ft dt with
  | nil => simp [build_field_maps]
  | cons p rest ih =>
      obtain ⟨n, f⟩ := p
      simp [build_field_maps_cons, ih]

theorem build_preserve_fst (api : CheckerApi) (fs : List (String × PyFieldObj))
    (ft dt : List (String × MypyTy)) (n : String)
    (h : n ∉ fs.map Prod.fst) :
    dlookup (build_field_maps api fs ft dt).1 n = dlookup ft n := by
  induction fs generalizing ft dt with
  | nil => simp [build_field_maps]
  | cons p rest ih =>
      obtain ⟨n0, f⟩ := p
      rw [List.map_cons] at h
      simp only [List.mem_cons, not_or] at h
      rw [build_field_maps_cons, ih _ _ h.2,
        dlookup_dinsert_ne _ _ _ _ (fun he => h.1 he.symm)]

theorem build_preserve_snd (api : CheckerApi) (fs : List (String × PyFieldObj))
    (ft dt : List (String × MypyTy)) (s : String)
    (h : s ∉ fs.map (fun p => p.2.source)) :
    dlookup (build_field_maps api fs ft dt).2 s = dlookup dt s := by
  induction fs generalizing ft dt with
  | nil => simp [build_field_maps]
  | cons p rest ih =>
      obtain ⟨n0, f⟩ := p
      rw [List.map_cons] at h
      simp only [List.mem_cons, not_or] at h
      rw [build_field_maps_cons, ih _ _ h.2,
        dlookup_dinsert_ne _ _ _ _ (fun he => h.1 he.symm)]

theorem build_keys_fst_mem (api : CheckerApi) (fs : List (String × PyFieldObj))
    (ft dt : List (String × MypyTy)) (n : String) :
    n ∈ (build_field_maps api fs ft dt).1.map Prod.fst ↔
      n ∈ ft.map Prod.fst ∨ n ∈ fs.map Prod.fst := by
  induction fs generalizing ft dt with
  | nil => simp [build_field_maps]
  | cons p rest ih =>
      obtain ⟨n0, f⟩ := p
      rw [build_field_maps_cons, ih]
      simp only [mem_keys_dinsert, List.map_cons, List.mem_cons]
      tauto

theorem build_keys_snd_mem (api : CheckerApi) (fs : List (String × PyFieldObj))
    (ft dt : List (String × MypyTy)) (s : String) :
    s ∈ (build_field_maps api fs ft dt).2.map Prod.fst ↔
      s ∈ dt.map Prod.fst ∨ s ∈ fs.map (fun p => p.2.source) := by
  induction fs generalizing ft dt with
  | nil => simp [build_field_maps]
  | cons p rest ih =>
      obtain ⟨n0, f⟩ := p
      rw [build_field_maps_cons, ih]
      simp only [mem_keys_dinsert, List.map_cons, List.mem_cons]
      tauto

theorem build_keys_fst_nodup (api : CheckerApi) (fs : List (String × PyFieldObj))
    (ft dt : List (String × MypyTy)) (h : (ft.map Prod.fst).Nodup) :
    ((build_field_maps api fs ft dt).1.map Prod.fst).Nodup := by
  induction fs generalizing ft dt with
  | nil => simpa [build_field_maps] using h
  | cons p rest ih =>
      obtain ⟨n0, f⟩ := p
      rw [build_field_maps_cons]
      exact ih _ _ (nodup_keys_dinsert _ _ _ h)

theorem build_keys_snd_nodup (api : CheckerApi) (fs : List (String × PyFieldObj))
    (ft dt : List (String × MypyTy)) (h : (dt.map Prod.fst).Nodup) :
    ((build_field_maps api fs ft dt).2.map Prod.fst).Nodup := by
  induction fs generalizing ft dt with
  | nil => simpa [build_field_maps] using h
  | cons p rest ih =>
      obtain ⟨n0, f⟩ := p
      rw [build_field_maps_cons]
      exact ih _ _ (nodup_keys_dinsert _ _ _ h)

theorem add_property_fields_eq (names : SymTable) (td : List (String × MypyTy))
    (fresh : Nat) :
    add_property_returning_typed_dict names td "fields" false false fresh =
      Except.ok (dinsert names "fields" (synthPropertyNode td false fresh)) := rfl

theorem add_property_data_defined_eq (names : SymTable)
    (td : List (String × MypyTy)) (il : Bool) (fresh : Nat) (u : STNode)
    (h : dlookup names "data" = some u) :
    add_property_returning_typed_dict names td "data" il true fresh =
      Except.ok (dinsert names "_pyi_data" u) := by
  simp [add_property_returning_typed_dict, h]

theorem add_property_data_undefined_eq (names : SymTable)
    (td : List (String × MypyTy)) (il : Bool) (fresh : Nat) :
    add_property_returning_typed_dict names td "data" il false fresh =
      Except.ok (dinsert (dinsert names "data" (synthPropertyNode td il fresh))
        "_pyi_data" (synthPropertyNode td il fresh)) := by
  simp [add_property_returning_typed_dict, synthPropertyNode, dlookup_dinsert_self]

theorem data_step_eq (names1 : SymTable) (dt : List (String × MypyTy))
    (il : Bool) (fresh : Nat) :
    add_property_returning_typed_dict names1 dt "data" il
        (dlookup names1 "data").isSome fresh =
      Except.ok (match dlookup names1 "data" with
        | some u => dinsert names1 "_pyi_data" u
        | none =>
            dinsert (dinsert names1 "data" (synthPropertyNode dt il fresh))
              "_pyi_data" (synthPropertyNode dt il fresh)) := by
  cases hd : dlookup names1 "data" with
  | some u =>
      have := add_property_data_defined_eq names1 dt il fresh u hd
      simpa [hd] using this
  | none =>
      have := add_property_data_undefined_eq names1 dt il fresh
      simpa [hd] using this

theorem redefine_applicable_eq (ctx : Ctx) (api : CheckerApi) (world : PyWorld)
    (fresh : Nat) (pym : PyModuleObj) (ser : PyClassObj) (tm : ModuleSyms)
    (hmod : dlookup world.modules (rsplitDot ctx.clsFullname).1 = some pym)
    (hattr : dlookup pym.attrs (rsplitDot ctx.clsFullname).2 = some ser)
    (hms : modelSerializerFullname ∈ ser.mro)
    (hmeta : ser.hasMeta = true)
    (htm : dlookup api.modules (rsplitDot ctx.clsFullname).1 = some tm) :
    redefine_and_typecheck_serializer_fields ctx api world fresh =
      Except.ok ⟨resolvedNames ctx api ser fresh, 1, []⟩ := by
  have hcond : ¬ ¬ (modelSerializerFullname ∈ ser.mro ∧ ser.hasMeta = true) :=
    not_not_intro ⟨hms, hmeta⟩
  simp only [redefine_and_typecheck_serializer_fields, hmod, hattr, htm,
    if_neg hcond]
  by_cases hf : (dlookup ctx.names "fields").isSome
  · simp only [if_pos hf, data_step_eq, resolvedNames, if_pos hf]
  · simp only [if_neg hf, add_property_fields_eq, data_step_eq, resolvedNames]

theorem resolved_invariant (ctx : Ctx) (api : CheckerApi) (ser : PyClassObj)
    (fresh : Nat) :
    (dlookup (resolvedNames ctx api ser fresh) "fields").isSome = true ∧
    ∃ d, dlookup (resolvedNames ctx api ser fresh) "data" = some d ∧
      dlookup (resolvedNames ctx api ser fresh) "_pyi_data" = some d := by
  have hdf : ("data" : String) ≠ "fields" := by decide
  have hpf : ("_pyi_data" : String) ≠ "fields" := by decide
  have hpd : ("_pyi_data" : String) ≠ "data" := by decide
  unfold resolvedNames
  by_cases hf : (dlookup ctx.names "fields").isSome
  · simp only [if_pos hf]
    cases hd : dlookup ctx.names "data" with
    | some u =>
        dsimp only
        refine ⟨?_, u, ?_, ?_⟩
        · rw [dlookup_dinsert_ne _ _ _ _ hpf]; exact hf
        · rw [dlookup_dinsert_ne _ _ _ _ hpd]; exact hd
        · exact dlookup_dinsert_self _ _ _
    | none =>
        dsimp only
        refine ⟨?_, synthPropertyNode (build_field_maps api ser.fields [] []).2
          (decide (listSerializerFullname ∈ ser.metaclassMro)) (fresh + 1),
          ?_, ?_⟩
        · rw [dlookup_dinsert_ne _ _ _ _ hpf, dlookup_dinsert_ne _ _ _ _ hdf]
          exact hf
        · rw [dlookup_dinsert_ne _ _ _ _ hpd]
          exact dlookup_dinsert_self _ _ _
        · exact dlookup_dinsert_self _ _ _
  · simp only [if_neg hf]
    have hf1 : dlookup (dinsert ctx.names "fields"
        (synthPropertyNode (build_field_maps api ser.fields [] []).1 false fresh))
        "fields" = some (synthPropertyNode
          (build_field_maps api ser.fields [] []).1 false fresh) :=
      dlookup_dinsert_self _ _ _
    cases hd : dlookup (dinsert ctx.names "fields"
        (synthPropertyNode (build_field_maps api ser.fields [] []).1 false fresh))
        "data" with
    | some u =>
        dsimp only
        refine ⟨?_, u, ?_, ?_⟩
        · rw [dlookup_dinsert_ne _ _ _ _ hpf, hf1]; rfl
        · rw [dlookup_dinsert_ne _ _ _ _ hpd]; exact hd
        · exact dlookup_dinsert_self _ _ _
    | none =>
        dsimp only
        refine ⟨?_, synthPropertyNode (build_field_maps api ser.fields [] []).2
          (decide (listSerializerFullname ∈ ser.metaclassMro)) (fresh + 1),
          ?_, ?_⟩
        · rw [dlookup_dinsert_ne _ _ _ _ hpf, dlookup_dinsert_ne _ _ _ _ hdf,
            hf1]
          rfl
        · rw [dlookup_dinsert_ne _ _ _ _ hpd]
          exact dlookup_dinsert_self _ _ _
        · exact dlookup_dinsert_self _ _ _

theorem resolvedNames_stable (ctx' : Ctx) (api : CheckerApi) (ser : PyClassObj)
    (fresh' : Nat)
    (hf : (dlookup ctx'.names "fields").isSome = true)
    (hd : ∃ d, dlookup ctx'.names "data" = some d ∧
      dlookup ctx'.names "_pyi_data" = some d) :
    resolvedNames ctx' api ser fresh' = ctx'.names := by
  obtain ⟨d, hd1, hd2⟩ := hd
  unfold resolvedNames
  simp only [if_pos hf, hd1]
  exact dinsert_dlookup_self _ _ _ hd2

theorem resolvedNames_idem (ctx : Ctx) (api : CheckerApi) (ser : PyClassObj)
    (fresh fresh' : Nat) (cf : String) :
    resolvedNames ⟨cf, resolvedNames ctx api ser fresh⟩ api ser fresh' =
      resolvedNames ctx api ser fresh := by
  have h := resolved_invariant ctx api ser fresh
  exact resolvedNames_stable ⟨cf, resolvedNames ctx api ser fresh⟩ api ser fresh'
    h.1 h.2

theorem redefine_not_applicable_eq (ctx : Ctx) (api : CheckerApi)
    (world : PyWorld) (fresh : Nat) (pym : PyModuleObj) (ser : PyClassObj)
    (hmod : dlookup world.modules (rsplitDot ctx.clsFullname).1 = some pym)
    (hattr : dlookup pym.attrs (rsplitDot ctx.clsFullname).2 = some ser)
    (happ : ¬ (modelSerializerFullname ∈ ser.mro ∧ ser.hasMeta = true)) :
    redefine_and_typecheck_serializer_fields ctx api world fresh =
      Except.ok ⟨ctx.names, 0, []⟩ := by
  simp only [redefine_and_typecheck_serializer_fields, hmod, hattr]
  rw [if_pos happ]

theorem redefine_no_attr_eq (ctx : Ctx) (api : CheckerApi)
    (world : PyWorld) (fresh : Nat) (pym : PyModuleObj)
    (hmod : dlookup world.modules (rsplitDot ctx.clsFullname).1 = some pym)
    (hattr : dlookup pym.attrs (rsplitDot ctx.clsFullname).2 = none) :
    redefine_and_typecheck_serializer_fields ctx api world fresh =
      Except.ok ⟨ctx.names, 0, []⟩ := by
  simp only [redefine_and_typecheck_serializer_fields, hmod, hattr]

theorem redefine_no_module_eq (ctx : Ctx) (api : CheckerApi)
    (world : PyWorld) (fresh : Nat)
    (hmod : dlookup world.modules (rsplitDot ctx.clsFullname).1 = none) :
    redefine_and_typecheck_serializer_fields ctx api world fresh =
      Except.error (PErr.moduleNotFoundError (rsplitDot ctx.clsFullname).1) := by
  simp only [redefine_and_typecheck_serializer_fields, hmod]

theorem redefine_no_target_module_eq (ctx : Ctx) (api : CheckerApi)
    (world : PyWorld) (fresh : Nat) (pym : PyModuleObj) (ser : PyClassObj)
    (hmod : dlookup world.modules (rsplitDot ctx.clsFullname).1 = some pym)
    (hattr : dlookup pym.attrs (rsplitDot ctx.clsFullname).2 = some ser)
    (hms : modelSerializerFullname ∈ ser.mro)
    (hmeta : ser.hasMeta = true)
    (htm : dlookup api.modules (rsplitDot ctx.clsFullname).1 = none) :
    redefine_and_typecheck_serializer_fields ctx api world fresh =
      Except.error (PErr.keyError (rsplitDot ctx.clsFullname).1) := by
  simp only [redefine_and_typecheck_serializer_fields, hmod, hattr]
  rw [if_neg (not_not_intro ⟨hms, hmeta⟩)]
  simp only [htm]

theorem redefine_ok_shape (ctx : Ctx) (api : CheckerApi) (world : PyWorld)
    (fresh : Nat) (o : ResolveOut)
    (h : redefine_and_typecheck_serializer_fields ctx api world fresh =
      Except.ok o) :
    o.diagnostics = [] ∧ o.instantiations ≤ 1 := by
  rcases hmod : dlookup world.modules (rsplitDot ctx.clsFullname).1 with _ | pym
  · rw [redefine_no_module_eq ctx api world fresh hmod] at h
    exact Except.noConfusion h
  · rcases hattr : dlookup pym.attrs (rsplitDot ctx.clsFullname).2 with _ | ser
    · rw [redefine_no_attr_eq ctx api world fresh pym hmod hattr] at h
      injection h with h'
      simp [← h']
    · by_cases happ : modelSerializerFullname ∈ ser.mro ∧ ser.hasMeta = true
      · rcases htm : dlookup api.modules (rsplitDot ctx.clsFullname).1 with _ | tm
        · rw [redefine_no_target_module_eq ctx api world fresh pym ser hmod
            hattr happ.1 happ.2 htm] at h
          exact Except.noConfusion h
        · rw [redefine_applicable_eq ctx api world fresh pym ser tm hmod hattr
            happ.1 happ.2 htm] at h
          injection h with h'
          simp [← h']
      · rw [redefine_not_applicable_eq ctx api world fresh pym ser hmod hattr
          happ] at h
        injection h with h'
        simp [← h']

theorem redefine_idem (ctx : Ctx) (api : CheckerApi) (world : PyWorld)
    (fresh fresh' : Nat) (o : ResolveOut)
    (h : redefine_and_typecheck_serializer_fields ctx api world fresh =
      Except.ok o) :
    redefine_and_typecheck_serializer_fields ⟨ctx.clsFullname, o.names⟩ api
      world fresh' = Except.ok o := by
  have hcf : (Ctx.mk ctx.clsFullname o.names).clsFullname = ctx.clsFullname := rfl
  rcases hmod : dlookup world.modules (rsplitDot ctx.clsFullname).1 with _ | pym
  · rw [redefine_no_module_eq ctx api world fresh hmod] at h
    exact Except.noConfusion h
  · rcases hattr : dlookup pym.attrs (rsplitDot ctx.clsFullname).2 with _ | ser
    · rw [redefine_no_attr_eq ctx api world fresh pym hmod hattr] at h
      injection h with h'
      rw [redefine_no_attr_eq ⟨ctx.clsFullname, o.names⟩ api world fresh' pym
        (by rw [hcf]; exact hmod) (by rw [hcf]; exact hattr), ← h']
    · by_cases happ : modelSerializerFullname ∈ ser.mro ∧ ser.hasMeta = true
      · rcases htm : dlookup api.modules (rsplitDot ctx.clsFullname).1 with _ | tm
        · rw [redefine_no_target_module_eq ctx api world fresh pym ser hmod
            hattr happ.1 happ.2 htm] at h
          exact Except.noConfusion h
        · rw [redefine_applicable_eq ctx api world fresh pym ser tm hmod hattr
            happ.1 happ.2 htm] at h
          injection h with h'
          rw [redefine_applicable_eq ⟨ctx.clsFullname, o.names⟩ api world fresh'
            pym ser tm (by rw [hcf]; exact hmod) (by rw [hcf]; exact hattr)
            happ.1 happ.2 (by rw [hcf]; exact htm)]
          rw [← h']
          rw [resolvedNames_idem]
      · rw [redefine_not_applicable_eq ctx api world fresh pym ser hmod hattr
          happ] at h
        injection h with h'
        rw [redefine_not_applicable_eq ⟨ctx.clsFullname, o.names⟩ api world
          fresh' pym ser (by rw [hcf]; exact hmod) (by rw [hcf]; exact hattr)
          happ, ← h']

theorem run_passes_nonfinal (cf : String) (api : CheckerApi) (world : PyWorld)
    (fresh : Nat) (names : SymTable) (rest : List Bool) :
    run_passes cf api world fresh names (false :: rest) =
      ((run_passes cf api world fresh names rest).1,
        (run_passes cf api world fresh names rest).2) := by
  simp [run_passes, handle_serializer_class]

theorem run_passes_count (cf : String) (api : CheckerApi) (world : PyWorld)
    (fresh : Nat) (names : SymTable) (k : Nat) :
    (run_passes cf api world fresh names
      (List.replicate k false ++ [true])).2 ≤ 1 := by
  induction k with
  | zero =>
      simp only [List.replicate, List.nil_append]
      rcases hr : redefine_and_typecheck_serializer_fields ⟨cf, names⟩
          ⟨api.modules, api.actualFieldType, true⟩ world fresh with e | r
      · simp [run_passes, handle_serializer_class, hr]
      · have := redefine_ok_shape _ _ _ _ _ hr
        simp [run_passes, handle_serializer_class, hr]
        exact this.2
  | succ k ih =>
      rw [List.replicate_succ, List.cons_append, run_passes_nonfinal]
      exact ih

/-! Concrete fixtures used by counterexamples and witnesses. -/

def fieldChar : PyFieldObj := ⟨"rf_fields", "CharField", "name", none⟩

def fieldNullable : PyFieldObj := ⟨"rf_fields", "IntegerField", "age", some true⟩

def fieldUnknown : PyFieldObj := ⟨"custom_fields", "ColorField", "color", none⟩

def serOk : PyClassObj :=
  ⟨"S", ["m.S", modelSerializerFullname], ["builtins.type"], true,
    [("name", fieldChar)]⟩

def worldOk : PyWorld := ⟨[("m", ⟨[("S", serOk)]⟩)]⟩

def rfSyms : ModuleSyms :=
  ⟨[("CharField", "rest_framework.fields.CharField"),
    ("IntegerField", "rest_framework.fields.IntegerField")]⟩

/-- The actual-value-type oracle used by the fixtures: text fields carry
`str`, integer fields carry `int`. -/
def actualOracle (ti : String) : MypyTy :=
  if ti = "rest_framework.fields.IntegerField" then MypyTy.instanceTy "builtins.int"
  else MypyTy.instanceTy "builtins.str"

def apiOk : CheckerApi := ⟨[("m", ⟨[]⟩), ("rf_fields", rfSyms)], actualOracle, true⟩

def apiNonFinal : CheckerApi := ⟨apiOk.modules, actualOracle, false⟩

def ctxOk : Ctx := ⟨"m.S", []⟩

def ctxC1 : Ctx := ⟨"mMissing.S", []⟩

def worldAttrMissing : PyWorld := ⟨[("mA", ⟨[]⟩)]⟩

def ctxAttrMissing : Ctx := ⟨"mA.S", []⟩

def apiNoModules : CheckerApi := ⟨[], actualOracle, true⟩

def serListModel : PyClassObj :=
  ⟨"LS", ["m3.LS", listSerializerFullname, modelSerializerFullname,
      "rest_framework.serializers.BaseSerializer"],
    ["builtins.type", "builtins.object"], true, [("name", fieldChar)]⟩

def worldC2 : PyWorld := ⟨[("m3", ⟨[("LS", serListModel)]⟩)]⟩

def apiC2 : CheckerApi := ⟨[("m3", ⟨[]⟩), ("rf_fields", rfSyms)], actualOracle, true⟩

def ctxC2 : Ctx := ⟨"m3.LS", []⟩

def serNoMeta : PyClassObj :=
  ⟨"N", ["m2.N", modelSerializerFullname], ["builtins.type"], false, []⟩

def worldC7 : PyWorld := ⟨[("m2", ⟨[("N", serNoMeta)]⟩)]⟩

def ctxC7 : Ctx := ⟨"m2.N", []⟩

/-! The claims. -/

/-- Claim C1 (counterexample): the claim states that every failure at the
dynamic-import boundary — importing the class's module by dotted path,
fetching the class attribute, or looking the module up in the checker's
module table — is caught inside `redefine_and_typecheck_serializer_fields`.
In fact a failing module import is not caught: for a class whose module is
missing from the runtime world, the handler propagates the
`ModuleNotFoundError` raised by `importlib.import_module`. -/
theorem claim_c1_counterexample :
    redefine_and_typecheck_serializer_fields ctxC1 apiOk ⟨[]⟩ 0 =
      Except.error (PErr.moduleNotFoundError "mMissing") := rfl

/-- Claim C1 (amended): of the failures at the dynamic-import boundary,
only the class-attribute fetch is caught inside
`redefine_and_typecheck_serializer_fields` (it degrades to a silent return
with the class untouched); a failure importing the class's module by dotted
path, and a missing entry for the module in the checker's module table on
the final lookup, both propagate out of the handler. -/
theorem claim_c1_amended_boundary (ctx : Ctx) (api : CheckerApi)
    (world : PyWorld) (fresh : Nat) :
    (dlookup world.modules (rsplitDot ctx.clsFullname).1 = none →
      redefine_and_typecheck_serializer_fields ctx api world fresh =
        Except.error (PErr.moduleNotFoundError (rsplitDot ctx.clsFullname).1)) ∧
    (∀ pym, dlookup world.modules (rsplitDot ctx.clsFullname).1 = some pym →
      dlookup pym.attrs (rsplitDot ctx.clsFullname).2 = none →
      redefine_and_typecheck_serializer_fields ctx api world fresh =
        Except.ok ⟨ctx.names, 0, []⟩) ∧
    (∀ pym ser, dlookup world.modules (rsplitDot ctx.clsFullname).1 = some pym →
      dlookup pym.attrs (rsplitDot ctx.clsFullname).2 = some ser →
      modelSerializerFullname ∈ ser.mro → ser.hasMeta = true →
      dlookup api.modules (rsplitDot ctx.clsFullname).1 = none →
      redefine_and_typecheck_serializer_fields ctx api world fresh =
        Except.error (PErr.keyError (rsplitDot ctx.clsFullname).1)) :=
  ⟨fun hmod => redefine_no_module_eq ctx api world fresh hmod,
   fun pym hmod hattr => redefine_no_attr_eq ctx api world fresh pym hmod hattr,
   fun pym ser hmod hattr hms hmeta htm =>
     redefine_no_target_module_eq ctx api world fresh pym ser hmod hattr hms
       hmeta htm⟩

/-- Witness for C1 (amended), at three concrete inputs: a missing runtime
module propagates, a missing class attribute is silently caught, and a
missing checker-module-table entry propagates. -/
theorem claim_c1_witness :
    redefine_and_typecheck_serializer_fields ctxC1 apiNoModules ⟨[]⟩ 1 =
      Except.error (PErr.moduleNotFoundError "mMissing") ∧
    redefine_and_typecheck_serializer_fields ctxAttrMissing apiOk
        worldAttrMissing 0 = Except.ok ⟨ctxAttrMissing.names, 0, []⟩ ∧
    redefine_and_typecheck_serializer_fields ctxOk apiNoModules worldOk 0 =
      Except.error (PErr.keyError "m") :=
  ⟨(claim_c1_amended_boundary ctxC1 apiNoModules ⟨[]⟩ 1).1 rfl,
   (claim_c1_amended_boundary ctxAttrMissing apiOk worldAttrMissing 0).2.1
     ⟨[]⟩ rfl rfl,
   (claim_c1_amended_boundary ctxOk apiNoModules worldOk 0).2.2 ⟨[("S", serOk)]⟩
     serOk rfl rfl (by decide) rfl rfl⟩

/-- Claim C2 (code bug): for a target class that models a collection of
sub-serializer instances (`ListSerializer` is in its method-resolution
order), the injected `data` property's return type should be the structural
type wrapped in a sequence.  The code instead evaluates
`isinstance(ser, ListSerializer)` on the class object — a test against the
class's metaclass, which is an ordinary metaclass here — so the wrapping is
never applied: the injected return type is the bare typed dict. -/
theorem claim_c2_collection_never_wrapped :
    (listSerializerFullname ∈ serListModel.mro ∧
      listSerializerFullname ∉ serListModel.metaclassMro) ∧
    (redefine_and_typecheck_serializer_fields ctxC2 apiC2 worldC2 0).map
        (fun o => (injected_ret_type o.names "data").map is_list_type) =
      Except.ok (some false) :=
  ⟨by decide, rfl⟩

/-- Claim C4: on a pass that is not the final iteration the handler defers
(requests re-invocation), leaves the member table untouched and performs no
shadow instantiation; only on the final iteration does it run the full
resolution. -/
theorem claim_c4_defer_until_final (ctx : Ctx) (api : CheckerApi)
    (world : PyWorld) (fresh : Nat) (registry : List (String × Nat))
    (baseSym base_process : Bool) :
    (api.finalIteration = false →
      (handle_serializer_class ctx api world fresh registry baseSym
        base_process).deferRequested = true ∧
      (handle_serializer_class ctx api world fresh registry baseSym
        base_process).result = Except.ok ⟨ctx.names, 0, []⟩) ∧
    (api.finalIteration = true →
      (handle_serializer_class ctx api world fresh registry baseSym
        base_process).deferRequested = false ∧
      (handle_serializer_class ctx api world fresh registry baseSym
        base_process).result =
        redefine_and_typecheck_serializer_fields ctx api world fresh) := by
  constructor
  · intro hfin
    constructor <;> simp [handle_serializer_class, hfin]
  · intro hfin
    constructor <;> simp [handle_serializer_class, hfin]

/-- Witness for C4 at a concrete non-final and a concrete final pass. -/
theorem claim_c4_witness :
    apiNonFinal.finalIteration = false ∧
    (handle_serializer_class ctxOk apiNonFinal worldOk 0 [] true true
      ).deferRequested = true ∧
    (handle_serializer_class ctxOk apiNonFinal worldOk 0 [] true true
      ).result = Except.ok ⟨ctxOk.names, 0, []⟩ ∧
    apiOk.finalIteration = true ∧
    (handle_serializer_class ctxOk apiOk worldOk 0 [] true true
      ).deferRequested = false ∧
    (handle_serializer_class ctxOk apiOk worldOk 0 [] true true).result =
      redefine_and_typecheck_serializer_fields ctxOk apiOk worldOk 0 :=
  ⟨rfl,
   ((claim_c4_defer_until_final ctxOk apiNonFinal worldOk 0 [] true true).1
     rfl).1,
   ((claim_c4_defer_until_final ctxOk apiNonFinal worldOk 0 [] true true).1
     rfl).2,
   rfl,
   ((claim_c4_defer_until_final ctxOk apiOk worldOk 0 [] true true).2 rfl).1,
   ((claim_c4_defer_until_final ctxOk apiOk worldOk 0 [] true true).2 rfl).2⟩

/-- Claim C7: when the dynamically loaded class is not a `ModelSerializer`
subclass, or lacks the nested `Meta` class, or the class attribute cannot
be re-located by name in its module, the final-pass resolution returns with
the member table unchanged (no injected properties), no shadow
instantiation and no diagnostic. -/
theorem claim_c7_not_applicable_silent (ctx : Ctx) (api : CheckerApi)
    (world : PyWorld) (fresh : Nat) (pym : PyModuleObj)
    (hmod : dlookup world.modules (rsplitDot ctx.clsFullname).1 = some pym)
    (h : dlookup pym.attrs (rsplitDot ctx.clsFullname).2 = none ∨
      ∃ ser, dlookup pym.attrs (rsplitDot ctx.clsFullname).2 = some ser ∧
        ¬ (modelSerializerFullname ∈ ser.mro ∧ ser.hasMeta = true)) :
    redefine_and_typecheck_serializer_fields ctx api world fresh =
      Except.ok ⟨ctx.names, 0, []⟩ := by
  rcases h with h | ⟨ser, hattr, happ⟩
  · exact redefine_no_attr_eq ctx api world fresh pym hmod h
  · exact redefine_not_applicable_eq ctx api world fresh pym ser hmod hattr happ

/-- Witness for C7: a `ModelSerializer` subclass without `Meta` is skipped
silently. -/
theorem claim_c7_witness :
    redefine_and_typecheck_serializer_fields ctxC7 apiOk worldC7 0 =
      Except.ok ⟨ctxC7.names, 0, []⟩ :=
  claim_c7_not_applicable_silent ctxC7 apiOk worldC7 0 ⟨[("N", serNoMeta)]⟩
    rfl (Or.inr ⟨serNoMeta, rfl, by decide⟩)

def serC3 : PyClassObj :=
  ⟨"S3", ["m5.S3", modelSerializerFullname], ["builtins.type"], true,
    [("color", fieldUnknown), ("name", fieldChar)]⟩

def worldC3 : PyWorld := ⟨[("m5", ⟨[("S3", serC3)]⟩)]⟩

def apiC3 : CheckerApi := ⟨[("m5", ⟨[]⟩), ("rf_fields", rfSyms)], actualOracle, true⟩

def ctxC3 : Ctx := ⟨"m5.S3", []⟩

/-- Claim C3: when a field's runtime class cannot be found in its defining
module's checker symbol table (the module is unknown or the name absent),
both the field-registry entry (keyed by field name) and the data-shape
entry (keyed by the field's source) become the explicit `Any` type, every
remaining field is still processed, and the class's resolution still
completes. -/
theorem claim_c3_lookup_failure_degrades (ctx : Ctx) (api : CheckerApi)
    (world : PyWorld) (fresh : Nat) (pym : PyModuleObj) (ser : PyClassObj)
    (tm : ModuleSyms) (pre post : List (String × PyFieldObj)) (n : String)
    (f : PyFieldObj)
    (hmod : dlookup world.modules (rsplitDot ctx.clsFullname).1 = some pym)
    (hattr : dlookup pym.attrs (rsplitDot ctx.clsFullname).2 = some ser)
    (hms : modelSerializerFullname ∈ ser.mro)
    (hmeta : ser.hasMeta = true)
    (htm : dlookup api.modules (rsplitDot ctx.clsFullname).1 = some tm)
    (hfields : ser.fields = pre ++ (n, f) :: post)
    (hfail : (dlookup api.modules f.moduleName).bind
      (fun fm => dlookup fm.names f.clsName) = none)
    (hn : n ∉ post.map Prod.fst)
    (hs : f.source ∉ post.map (fun p => p.2.source)) :
    dlookup (build_field_maps api ser.fields [] []).1 n =
      some (MypyTy.anyTy 1) ∧
    dlookup (build_field_maps api ser.fields [] []).2 f.source =
      some (MypyTy.anyTy 1) ∧
    (∀ p ∈ post, p.1 ∈ (build_field_maps api ser.fields [] []).1.map Prod.fst) ∧
    redefine_and_typecheck_serializer_fields ctx api world fresh =
      Except.ok ⟨resolvedNames ctx api ser fresh, 1, []⟩ := by
  have hb : build_field_maps api ser.fields [] [] =
      build_field_maps api post
        (dinsert (build_field_maps api pre [] []).1 n (fieldRegTy api f))
        (dinsert (build_field_maps api pre [] []).2 f.source
          (dataShapeTy api f)) := by
    rw [hfields, build_field_maps_append, build_field_maps_cons]
  refine ⟨?_, ?_, ?_,
    redefine_applicable_eq ctx api world fresh pym ser tm hmod hattr hms hmeta
      htm⟩
  · rw [hb, build_preserve_fst _ _ _ _ _ hn, dlookup_dinsert_self,
      fieldRegTy_of_fail api f hfail]
  · rw [hb, build_preserve_snd _ _ _ _ _ hs, dlookup_dinsert_self,
      dataShapeTy_of_fail api f hfail]
  · intro p hp
    rw [hb, build_keys_fst_mem]
    exact Or.inr (List.mem_map_of_mem Prod.fst hp)

/-- Witness for C3: a serializer with one unmappable field (its module is
unknown to the checker) followed by one mappable field. -/
theorem claim_c3_witness :
    dlookup (build_field_maps apiC3 serC3.fields [] []).1 "color" =
      some (MypyTy.anyTy 1) ∧
    dlookup (build_field_maps apiC3 serC3.fields [] []).2 "color" =
      some (MypyTy.anyTy 1) ∧
    (∀ p ∈ [("name", fieldChar)],
      p.1 ∈ (build_field_maps apiC3 serC3.fields [] []).1.map Prod.fst) ∧
    redefine_and_typecheck_serializer_fields ctxC3 apiC3 worldC3 0 =
      Except.ok ⟨resolvedNames ctxC3 apiC3 serC3 0, 1, []⟩ :=
  claim_c3_lookup_failure_degrades ctxC3 apiC3 worldC3 0 ⟨[("S3", serC3)]⟩
    serC3 ⟨[]⟩ [] [("name", fieldChar)] "color" fieldUnknown rfl rfl
    (by decide) rfl rfl rfl rfl (by decide) (by decide)

/-- Claim C5: if the class already declares a member named `fields` or
`data`, the synthetic property of that name is not installed: the existing
entry is still found unchanged after resolution, and no duplicate keys are
introduced. -/
theorem claim_c5_user_members_win (ctx : Ctx) (api : CheckerApi)
    (world : PyWorld) (fresh : Nat) (pym : PyModuleObj) (ser : PyClassObj)
    (tm : ModuleSyms)
    (hmod : dlookup world.modules (rsplitDot ctx.clsFullname).1 = some pym)
    (hattr : dlookup pym.attrs (rsplitDot ctx.clsFullname).2 = some ser)
    (hms : modelSerializerFullname ∈ ser.mro)
    (hmeta : ser.hasMeta = true)
    (htm : dlookup api.modules (rsplitDot ctx.clsFullname).1 = some tm) :
    redefine_and_typecheck_serializer_fields ctx api world fresh =
      Except.ok ⟨resolvedNames ctx api ser fresh, 1, []⟩ ∧
    (∀ u, dlookup ctx.names "fields" = some u →
      dlookup (resolvedNames ctx api ser fresh) "fields" = some u) ∧
    (∀ u, dlookup ctx.names "data" = some u →
      dlookup (resolvedNames ctx api ser fresh) "data" = some u) ∧
    ((ctx.names.map Prod.fst).Nodup →
      ((resolvedNames ctx api ser fresh).map Prod.fst).Nodup) := by
  have hdf : ("data" : String) ≠ "fields" := by decide
  have hpf : ("_pyi_data" : String) ≠ "fields" := by decide
  have hpd : ("_pyi_data" : String) ≠ "data" := by decide
  have hfd : ("fields" : String) ≠ "data" := by decide
  refine ⟨redefine_applicable_eq ctx api world fresh pym ser tm hmod hattr hms
    hmeta htm, ?_, ?_, ?_⟩
  · intro u hu
    have hf : (dlookup ctx.names "fields").isSome = true := by rw [hu]; rfl
    unfold resolvedNames
    simp only [if_pos hf]
    cases hd : dlookup ctx.names "data" with
    | some w =>
        dsimp only
        rw [dlookup_dinsert_ne _ _ _ _ hpf]
        exact hu
    | none =>
        dsimp only
        rw [dlookup_dinsert_ne _ _ _ _ hpf, dlookup_dinsert_ne _ _ _ _ hdf]
        exact hu
  · intro u hu
    unfold resolvedNames
    by_cases hf : (dlookup ctx.names "fields").isSome
    · simp only [if_pos hf, hu]
      rw [dlookup_dinsert_ne _ _ _ _ hpd]
      exact hu
    · simp only [if_neg hf, dlookup_dinsert_ne _ "fields" "data" _ hfd, hu]
      rw [dlookup_dinsert_ne _ _ _ _ hpd, dlookup_dinsert_ne _ _ _ _ hfd]
      exact hu
  · intro hnod
    unfold resolvedNames
    by_cases hf : (dlookup ctx.names "fields").isSome
    · simp only [if_pos hf]
      cases hd : dlookup ctx.names "data" with
      | some w => exact nodup_keys_dinsert _ _ _ hnod
      | none =>
          exact nodup_keys_dinsert _ _ _ (nodup_keys_dinsert _ _ _ hnod)
    · simp only [if_neg hf]
      cases hd : dlookup (dinsert ctx.names "fields"
          (synthPropertyNode (build_field_maps api ser.fields [] []).1 false
            fresh)) "data" with
      | some w =>
          exact nodup_keys_dinsert _ _ _ (nodup_keys_dinsert _ _ _ hnod)
      | none =>
          exact nodup_keys_dinsert _ _ _
            (nodup_keys_dinsert _ _ _ (nodup_keys_dinsert _ _ _ hnod))

def userFieldsNode : STNode := ⟨100, MpNode.varNode (some (MypyTy.anyTy 0)), false⟩

def userDataNode : STNode :=
  ⟨101, MpNode.decoratorNode
    (some (MypyTy.callableTy [MypyTy.anyTy 1] (MypyTy.instanceTy "builtins.dict")))
    none, false⟩

def ctxC5 : Ctx := ⟨"m.S", [("fields", userFieldsNode), ("data", userDataNode)]⟩

/-- Witness for C5: a class with user-declared `fields` and `data`
members keeps both unchanged through resolution. -/
theorem claim_c5_witness :
    redefine_and_typecheck_serializer_fields ctxC5 apiOk worldOk 0 =
      Except.ok ⟨resolvedNames ctxC5 apiOk serOk 0, 1, []⟩ ∧
    dlookup (resolvedNames ctxC5 apiOk serOk 0) "fields" = some userFieldsNode ∧
    dlookup (resolvedNames ctxC5 apiOk serOk 0) "data" = some userDataNode ∧
    ((resolvedNames ctxC5 apiOk serOk 0).map Prod.fst).Nodup := by
  have h := claim_c5_user_members_win ctxC5 apiOk worldOk 0 ⟨[("S", serOk)]⟩
    serOk ⟨[]⟩ rfl rfl (by decide) rfl rfl
  exact ⟨h.1, h.2.1 userFieldsNode rfl, h.2.2.1 userDataNode rfl,
    h.2.2.2 (by decide)⟩

/-- Claim C6: resolution is idempotent on re-entry — a second run of the
final-pass resolution on an already-resolved member table returns the very
same outcome (same single `fields`, `data` and `_pyi_data` entries, nothing
duplicated or overwritten) — and over a host analysis run whose passes are
all deferred except the final one, the class is shadow-instantiated at most
once. -/
theorem claim_c6_idempotent_reentry (ctx : Ctx) (api : CheckerApi)
    (world : PyWorld) (fresh fresh' : Nat) (o : ResolveOut) (k : Nat)
    (h : redefine_and_typecheck_serializer_fields ctx api world fresh =
      Except.ok o) :
    redefine_and_typecheck_serializer_fields ⟨ctx.clsFullname, o.names⟩ api
      world fresh' = Except.ok o ∧
    (run_passes ctx.clsFullname api world fresh ctx.names
      (List.replicate k false ++ [true])).2 ≤ 1 :=
  ⟨redefine_idem ctx api world fresh fresh' o h,
   run_passes_count ctx.clsFullname api world fresh ctx.names k⟩

def oC6 : ResolveOut :=
  ⟨[("fields", ⟨0, MpNode.decoratorNode none
      (some (MypyTy.callableTy [MypyTy.anyTy 1]
        (MypyTy.typedDictTy
          [("name", MypyTy.instanceTy "rest_framework.fields.CharField")] []))),
      true⟩),
    ("data", ⟨1, MpNode.decoratorNode none
      (some (MypyTy.callableTy [MypyTy.anyTy 1]
        (MypyTy.typedDictTy [("name", MypyTy.instanceTy "builtins.str")] []))),
      true⟩),
    ("_pyi_data", ⟨1, MpNode.decoratorNode none
      (some (MypyTy.callableTy [MypyTy.anyTy 1]
        (MypyTy.typedDictTy [("name", MypyTy.instanceTy "builtins.str")] []))),
      true⟩)],
   1, []⟩

/-- Witness for C6: re-running resolution on the concrete resolved table
returns the identical outcome, and a three-pass run (two deferrals, one
final pass) instantiates at most once. -/
theorem claim_c6_witness :
    redefine_and_typecheck_serializer_fields ⟨ctxOk.clsFullname, oC6.names⟩
      apiOk worldOk 7 = Except.ok oC6 ∧
    (run_passes ctxOk.clsFullname apiOk worldOk 0 ctxOk.names
      (List.replicate 2 false ++ [true])).2 ≤ 1 :=
  claim_c6_idempotent_reentry ctxOk apiOk worldOk 0 7 oC6 2 rfl

theorem fieldRegTy_of_ok (api : CheckerApi) (f : PyFieldObj) (fm : ModuleSyms)
    (ti : String) (hm : dlookup api.modules f.moduleName = some fm)
    (hc : dlookup fm.names f.clsName = some ti) :
    fieldRegTy api f = MypyTy.instanceTy ti := by
  simp only [fieldRegTy, hm, hc]

theorem dataShapeTy_of_ok (api : CheckerApi) (f : PyFieldObj) (fm : ModuleSyms)
    (ti : String) (hm : dlookup api.modules f.moduleName = some fm)
    (hc : dlookup fm.names f.clsName = some ti) :
    dataShapeTy api f =
      get_private_descriptor_type api ti (f.allowNull.getD false) := by
  simp only [dataShapeTy, hm, hc]

theorem get_private_descriptor_type_if (api : CheckerApi) (ti : String)
    (an : Option Bool) :
    get_private_descriptor_type api ti (an.getD false) =
      if an = some true then MypyTy.optionalTy (api.actualFieldType ti)
      else api.actualFieldType ti := by
  cases an with
  | none => simp [get_private_descriptor_type]
  | some b => cases b <;> simp [get_private_descriptor_type]

theorem injected_ret_type_synth (names : SymTable) (p : String)
    (td : List (String × MypyTy)) (il : Bool) (fr : Nat)
    (h : dlookup names p = some (synthPropertyNode td il fr)) :
    injected_ret_type names p =
      some (if il then MypyTy.listTy (MypyTy.typedDictTy td [])
        else MypyTy.typedDictTy td []) := by
  unfold injected_ret_type
  rw [h]
  rfl

/-! Fixtures for C8. -/

def fieldSrcA : PyFieldObj := ⟨"rf_fields", "CharField", "s", none⟩

def fieldSrcB : PyFieldObj := ⟨"rf_fields", "IntegerField", "s", none⟩

def serC8 : PyClassObj :=
  ⟨"S8", ["m8.S8", modelSerializerFullname], ["builtins.type"], true,
    [("a", fieldSrcA), ("b", fieldSrcB)]⟩

def worldC8 : PyWorld := ⟨[("m8", ⟨[("S8", serC8)]⟩)]⟩

def apiC8 : CheckerApi := ⟨[("m8", ⟨[]⟩), ("rf_fields", rfSyms)], actualOracle, true⟩

def ctxC8 : Ctx := ⟨"m8.S8", []⟩

/-- Claim C8 (counterexample): the claim promises one structural-type entry
per observed field, keyed by source name for `data`.  Two observed fields
that declare the same source collapse to a single entry in the data-shape
typed dict: here two fields yield a one-member `data` type. -/
theorem claim_c8_counterexample :
    serC8.fields.length = 2 ∧
    (redefine_and_typecheck_serializer_fields ctxC8 apiC8 worldC8 0).map
        (fun o => (injected_ret_type o.names "data").map
          (fun t => match t with
            | MypyTy.typedDictTy items _ => items.length
            | _ => 0)) = Except.ok (some 1) := ⟨rfl, rfl⟩

/-- Claim C8 (amended): each injected structural type's members are exactly
the keys of the corresponding mapping — one entry per distinct field name
for `fields` and one per distinct source name for `data` (fields sharing a
source share a single entry) — with an empty required-key set; every
observed field has an entry under its key in both structures (an unmappable
field is mapped, not omitted). -/
theorem claim_c8_amended_structure (ctx : Ctx) (api : CheckerApi)
    (world : PyWorld) (fresh : Nat) (pym : PyModuleObj) (ser : PyClassObj)
    (tm : ModuleSyms)
    (hmod : dlookup world.modules (rsplitDot ctx.clsFullname).1 = some pym)
    (hattr : dlookup pym.attrs (rsplitDot ctx.clsFullname).2 = some ser)
    (hms : modelSerializerFullname ∈ ser.mro)
    (hmeta : ser.hasMeta = true)
    (htm : dlookup api.modules (rsplitDot ctx.clsFullname).1 = some tm)
    (hnf : dlookup ctx.names "fields" = none)
    (hnd : dlookup ctx.names "data" = none) :
    redefine_and_typecheck_serializer_fields ctx api world fresh =
      Except.ok ⟨resolvedNames ctx api ser fresh, 1, []⟩ ∧
    injected_ret_type (resolvedNames ctx api ser fresh) "fields" =
      some (MypyTy.typedDictTy (build_field_maps api ser.fields [] []).1 []) ∧
    injected_ret_type (resolvedNames ctx api ser fresh) "data" =
      some (if listSerializerFullname ∈ ser.metaclassMro
        then MypyTy.listTy
          (MypyTy.typedDictTy (build_field_maps api ser.fields [] []).2 [])
        else MypyTy.typedDictTy (build_field_maps api ser.fields [] []).2 []) ∧
    (∀ n, n ∈ (build_field_maps api ser.fields [] []).1.map Prod.fst ↔
      n ∈ ser.fields.map Prod.fst) ∧
    (∀ s, s ∈ (build_field_maps api ser.fields [] []).2.map Prod.fst ↔
      s ∈ ser.fields.map (fun p => p.2.source)) ∧
    ((build_field_maps api ser.fields [] []).1.map Prod.fst).Nodup ∧
    ((build_field_maps api ser.fields [] []).2.map Prod.fst).Nodup ∧
    (∀ p ∈ ser.fields,
      (dlookup (build_field_maps api ser.fields [] []).1 p.1).isSome = true ∧
      (dlookup (build_field_maps api ser.fields [] []).2 p.2.source).isSome
        = true) := by
  have hdf : ("data" : String) ≠ "fields" := by decide
  have hpf : ("_pyi_data" : String) ≠ "fields" := by decide
  have hpd : ("_pyi_data" : String) ≠ "data" := by decide
  have hfd : ("fields" : String) ≠ "data" := by decide
  have hf' : ¬ ((dlookup ctx.names "fields").isSome = true) := by
    rw [hnf]; simp
  have hR : resolvedNames ctx api ser fresh =
      dinsert (dinsert (dinsert ctx.names "fields"
          (synthPropertyNode (build_field_maps api ser.fields [] []).1 false
            fresh))
        "data" (synthPropertyNode (build_field_maps api ser.fields [] []).2
          (decide (listSerializerFullname ∈ ser.metaclassMro)) (fresh + 1)))
        "_pyi_data" (synthPropertyNode (build_field_maps api ser.fields [] []).2
          (decide (listSerializerFullname ∈ ser.metaclassMro)) (fresh + 1)) := by
    unfold resolvedNames
    simp only [if_neg hf']
    rw [dlookup_dinsert_ne _ "fields" "data" _ hfd, hnd]
  refine ⟨redefine_applicable_eq ctx api world fresh pym ser tm hmod hattr hms
      hmeta htm, ?_, ?_, ?_, ?_, ?_, ?_, ?_⟩
  · have hlf : dlookup (resolvedNames ctx api ser fresh) "fields" =
        some (synthPropertyNode (build_field_maps api ser.fields [] []).1 false
          fresh) := by
      rw [hR, dlookup_dinsert_ne _ _ _ _ hpf, dlookup_dinsert_ne _ _ _ _ hdf,
        dlookup_dinsert_self]
    rw [injected_ret_type_synth _ _ _ _ _ hlf]
    simp
  · have hld : dlookup (resolvedNames ctx api ser fresh) "data" =
        some (synthPropertyNode (build_field_maps api ser.fields [] []).2
          (decide (listSerializerFullname ∈ ser.metaclassMro)) (fresh + 1)) := by
      rw [hR, dlookup_dinsert_ne _ _ _ _ hpd, dlookup_dinsert_self]
    rw [injected_ret_type_synth _ _ _ _ _ hld]
    by_cases hmem : listSerializerFullname ∈ ser.metaclassMro <;> simp [hmem]
  · intro n
    rw [build_keys_fst_mem]
    simp
  · intro s
    rw [build_keys_snd_mem]
    simp
  · exact build_keys_fst_nodup api _ [] [] (by simp)
  · exact build_keys_snd_nodup api _ [] [] (by simp)
  · intro p hp
    constructor
    · rw [dlookup_isSome_iff_mem, build_keys_fst_mem]
      exact Or.inr (List.mem_map_of_mem _ hp)
    · rw [dlookup_isSome_iff_mem, build_keys_snd_mem]
      exact Or.inr (List.mem_map_of_mem _ hp)

/-- Witness for C8 (amended) on the duplicate-source fixture: the injected
`fields` type is the field-registry mapping, the data-shape keys are
duplicate-free, and every observed field has an entry under its source. -/
theorem claim_c8_witness :
    injected_ret_type (resolvedNames ctxC8 apiC8 serC8 0) "fields" =
      some (MypyTy.typedDictTy (build_field_maps apiC8 serC8.fields [] []).1 []) ∧
    ((build_field_maps apiC8 serC8.fields [] []).2.map Prod.fst).Nodup ∧
    (∀ p ∈ serC8.fields,
      (dlookup (build_field_maps apiC8 serC8.fields [] []).2 p.2.source).isSome
        = true) := by
  have h := claim_c8_amended_structure ctxC8 apiC8 worldC8 0 ⟨[("S8", serC8)]⟩
    serC8 ⟨[]⟩ rfl rfl (by decide) rfl rfl rfl rfl
  exact ⟨h.2.1, h.2.2.2.2.2.2.1, fun p hp => (h.2.2.2.2.2.2.2 p hp).2⟩

/-- Claim C9: for a successfully mapped field, the data-shape entry is the
field class's actual-value type wrapped in a nullable annotation exactly
when the runtime field carries a true `allow_null` flag (an absent flag
counts as false), while the field-registry entry for the same field is the
bare field class instance type, independent of nullability. -/
theorem claim_c9_nullability (api : CheckerApi)
    (fs pre post : List (String × PyFieldObj)) (n : String) (f : PyFieldObj)
    (fm : ModuleSyms) (ti : String)
    (hfs : fs = pre ++ (n, f) :: post)
    (hm : dlookup api.modules f.moduleName = some fm)
    (hc : dlookup fm.names f.clsName = some ti)
    (hn : n ∉ post.map Prod.fst)
    (hs : f.source ∉ post.map (fun p => p.2.source)) :
    dlookup (build_field_maps api fs [] []).1 n =
      some (MypyTy.instanceTy ti) ∧
    dlookup (build_field_maps api fs [] []).2 f.source =
      some (if f.allowNull = some true
        then MypyTy.optionalTy (api.actualFieldType ti)
        else api.actualFieldType ti) := by
  subst hfs
  rw [build_field_maps_append, build_field_maps_cons]
  constructor
  · rw [build_preserve_fst _ _ _ _ _ hn, dlookup_dinsert_self,
      fieldRegTy_of_ok api f fm ti hm hc]
  · rw [build_preserve_snd _ _ _ _ _ hs, dlookup_dinsert_self,
      dataShapeTy_of_ok api f fm ti hm hc, get_private_descriptor_type_if]

/-- Witness for C9: a nullable integer field maps to the nullable form of
the number type in the data shape, while its registry entry stays the bare
field class. -/
theorem claim_c9_witness :
    dlookup (build_field_maps apiOk
        [("age", fieldNullable), ("name", fieldChar)] [] []).1 "age" =
      some (MypyTy.instanceTy "rest_framework.fields.IntegerField") ∧
    dlookup (build_field_maps apiOk
        [("age", fieldNullable), ("name", fieldChar)] [] []).2 "age" =
      some (MypyTy.optionalTy (MypyTy.instanceTy "builtins.int")) := by
  have h := claim_c9_nullability apiOk
    [("age", fieldNullable), ("name", fieldChar)] [] [("name", fieldChar)]
    "age" fieldNullable rfSyms "rest_framework.fields.IntegerField" rfl rfl
    rfl (by decide) (by decide)
  exact ⟨h.1, h.2.trans rfl⟩

/-- Claim C10: after final-pass injection for an applicable class, the
private `_pyi_data` entry is the very same symbol-table node as the class's
current `data` member; in particular when the user declared their own
`data`, `_pyi_data` holds the user's node and the return-type resolver
reads the user's declared type. -/
theorem claim_c10_pyi_data_alias (ctx : Ctx) (api : CheckerApi)
    (world : PyWorld) (fresh : Nat) (pym : PyModuleObj) (ser : PyClassObj)
    (tm : ModuleSyms)
    (hmod : dlookup world.modules (rsplitDot ctx.clsFullname).1 = some pym)
    (hattr : dlookup pym.attrs (rsplitDot ctx.clsFullname).2 = some ser)
    (hms : modelSerializerFullname ∈ ser.mro)
    (hmeta : ser.hasMeta = true)
    (htm : dlookup api.modules (rsplitDot ctx.clsFullname).1 = some tm) :
    redefine_and_typecheck_serializer_fields ctx api world fresh =
      Except.ok ⟨resolvedNames ctx api ser fresh, 1, []⟩ ∧
    dlookup (resolvedNames ctx api ser fresh) "_pyi_data" =
      dlookup (resolvedNames ctx api ser fresh) "data" ∧
    (∀ u, dlookup ctx.names "data" = some u →
      dlookup (resolvedNames ctx api ser fresh) "_pyi_data" = some u ∧
      (∀ a r, STNode.sttype u = some (MypyTy.callableTy a r) →
        handle_return_type (resolvedNames ctx api ser fresh) = Except.ok r) ∧
      (STNode.sttype u = none →
        handle_return_type (resolvedNames ctx api ser fresh) =
          Except.ok MypyTy.mappingTy)) := by
  have hfd : ("fields" : String) ≠ "data" := by decide
  refine ⟨redefine_applicable_eq ctx api world fresh pym ser tm hmod hattr hms
    hmeta htm, ?_, ?_⟩
  · obtain ⟨hf, d, hd1, hd2⟩ := resolved_invariant ctx api ser fresh
    rw [hd1, hd2]
  · intro u hu
    have hpyi : dlookup (resolvedNames ctx api ser fresh) "_pyi_data" =
        some u := by
      unfold resolvedNames
      by_cases hf : (dlookup ctx.names "fields").isSome
      · simp only [if_pos hf, hu]
        exact dlookup_dinsert_self _ _ _
      · simp only [if_neg hf, dlookup_dinsert_ne _ "fields" "data" _ hfd, hu]
        exact dlookup_dinsert_self _ _ _
    refine ⟨hpyi, ?_, ?_⟩
    · intro a r hr
      simp only [handle_return_type, hpyi, hr, retTypeAttr]
    · intro hnone
      simp only [handle_return_type, hpyi, hnone]

/-- Witness for C10: with a user-declared `data` property whose declared
type is a callable returning `builtins.dict`, the side-table alias holds
the user's node and the resolver returns `builtins.dict`. -/
theorem claim_c10_witness :
    dlookup (resolvedNames ctxC5 apiOk serOk 0) "_pyi_data" =
      some userDataNode ∧
    handle_return_type (resolvedNames ctxC5 apiOk serOk 0) =
      Except.ok (MypyTy.instanceTy "builtins.dict") := by
  have h := claim_c10_pyi_data_alias ctxC5 apiOk worldOk 0 ⟨[("S", serOk)]⟩
    serOk ⟨[]⟩ rfl rfl (by decide) rfl rfl
  have h3 := h.2.2 userDataNode rfl
  exact ⟨h3.1, h3.2.1 [MypyTy.anyTy 1] (MypyTy.instanceTy "builtins.dict") rfl⟩

end DRFPlugin
